import Mathlib

/-!
Verification development for the `serverless` repository: two AWS Lambda
handlers that send an email-verification link through SendGrid.

* `src/lambda_function.py` — the "stateless" variant: credential fetched from
  AWS Secrets Manager, token supplied by the caller, no database.
* `src/lambda_package/lambda_function.py` — the "stateful" variant: credential
  from an environment variable, token derived from `user_id` and an expiry
  timestamp, row inserted into an `email_verification` table.

The embedding is shallow.  Python values that can appear in a JSON-decoded
event are modelled by the inductive type `Py`.  External collaborators
(the secrets store, the SendGrid client, the database, and the `json`
library's `loads`) are modelled as oracles: each invocation is run against a
"world" record fixing the outcome of each external call, and the handler
additionally returns the list of external calls it attempted, so that
claims about which network calls happen can be stated.  Raised Python
exceptions are modelled by `Except PyErr`; exception *kinds* are tracked
because the stateful variant catches only `KeyError` and
`json.JSONDecodeError`.
-/

namespace Serverless

/-- Python/JSON values as they occur in Lambda events and decoded payloads. -/
inductive Py : Type where
  | pyNone : Py
  | pyBool : Bool → Py
  | pyInt  : Int → Py
  | pyStr  : String → Py
  | pyList : List Py → Py
  | pyDict : List (String × Py) → Py

/-- Kinds of Python exceptions that the two handlers can raise or catch. -/
inductive PyErr : Type where
  | keyError        : PyErr
  | indexError      : PyErr
  | typeError       : PyErr
  | jsonDecodeError : PyErr
  | valueError      : PyErr
  | attributeError  : PyErr
  deriving DecidableEq, Repr

open Py PyErr

/-- Python truthiness (`if not email or not verification_token`). -/
def pyTruthy : Py → Bool
  | pyNone    => false
  | pyBool b  => b
  | pyInt n   => n ≠ 0
  | pyStr s   => s ≠ ""
  | pyList xs => ¬ xs.isEmpty
  | pyDict kv => ¬ kv.isEmpty

/-- Rendering used by `repr()` for a value nested inside a list or dict rendering (strings
single-quoted; escape handling inside nested strings is not modelled — an
approximation irrelevant to every claim, which only interpolates scalar
values). -/
def pyRepr : Py → String
  | pyStr s   => "\x27" ++ s ++ "\x27"
  | pyNone    => "None"
  | pyBool b  => if b then "True" else "False"
  | pyInt n   => toString n
  | pyList xs => "[" ++ String.intercalate ", " (xs.attach.map
      (fun x => pyRepr x.1)) ++ "]"
  | pyDict kv => "\x7b" ++ String.intercalate ", " (kv.attach.map
      (fun x => "\x27" ++ x.1.1 ++ "\x27: " ++ pyRepr x.1.2)) ++ "\x7d"
decreasing_by
  · have h := List.sizeOf_lt_of_mem x.2
    simp_wf
    omega
  · obtain ⟨⟨k, v⟩, hmem⟩ := x
    have h := List.sizeOf_lt_of_mem hmem
    simp_wf
    simp only [Prod.mk.sizeOf_spec] at h
    omega

/-- Python `str()` as used by f-string interpolation (`f"{user_id}:..."`).
Exact for `None`, booleans, integers and strings — the only value kinds an
event payload field takes in practice; lists and dicts render via their
`repr`. -/
def pyToStr : Py → String
  | pyNone    => "None"
  | pyBool b  => if b then "True" else "False"
  | pyInt n   => toString n
  | pyStr s   => s
  | pyList xs => pyRepr (pyList xs)
  | pyDict kv => pyRepr (pyDict kv)

/-- Python subscript `x[k]` with a string key: value lookup on a dict
(`KeyError` when absent), `TypeError` on every other base type. -/
def getKey : Py → String → Except PyErr Py
  | pyDict kv, k => match kv.lookup k with
      | some v => .ok v
      | none   => .error keyError
  | _, _ => .error typeError

/-- Python subscript `x[i]` with a non-negative integer index, as used at
`event['Records'][0]`: list indexing (`IndexError` out of range), string
indexing (one-character string), `KeyError` on a dict whose keys are
strings, `TypeError` on scalars. -/
def getIdx : Py → Nat → Except PyErr Py
  | pyList xs, i => match xs.get? i with
      | some v => .ok v
      | none   => .error indexError
  | pyStr s, i => match s.toList.get? i with
      | some c => .ok (pyStr (String.mk [c]))
      | none   => .error indexError
  | pyDict _, _ => .error keyError
  | _, _ => .error typeError

/-- Python membership test `'Records' in event`: key test on a dict,
element test on a list, substring test on a string, `TypeError` on
scalars. -/
def pyContains : Py → String → Except PyErr Bool
  | pyDict kv, k => .ok ((kv.lookup k).isSome)
  | pyList xs, k => .ok (xs.any (fun x => match x with
      | pyStr s => s == k
      | _ => false))
  | pyStr s, k   => .ok ((s.splitOn k).length ≠ 1)
  | _, _ => .error typeError

/-- Python `payload.get(k)`: `None` default on a dict, `AttributeError`
when the receiver is not a dict. -/
def pyGet : Py → String → Except PyErr Py
  | pyDict kv, k => .ok ((kv.lookup k).getD pyNone)
  | _, _ => .error attributeError

/-- The handler's return value: `{"statusCode": ..., "body": ...}`. -/
structure Response : Type where
  statusCode : Nat
  body : String
  deriving DecidableEq, Repr

/-- Body string `json.dumps({"message": msg})` for the plain ASCII messages the two
handlers use (no characters needing JSON escaping). -/
def mkBody (msg : String) : String :=
  "\x7b\"message\": \"" ++ msg ++ "\"\x7d"

/-- One attempted external (network) call, recorded in invocation order. -/
inductive Call : Type where
  /-- the call `secrets_client.get_secret_value(SecretId='sendgrid_api_key_secret')`. -/
  | secretsFetch : Call
  /-- the call `sg.send(message)` with the recipient and the embedded verification
  link. -/
  | emailSend (email : Py) (link : String) : Call
  /-- the `INSERT INTO email_verification` row
  `(user_id, email, verification_token, expiration_time, is_verified)`;
  the expiry is in microseconds since the Unix epoch. -/
  | dbInsert (user_id email : Py) (token : String) (expiration : Nat)
      (is_verified : Bool) : Call

/-- Python's `str.strip()` with no argument: remove leading and trailing
whitespace. -/
def pyStrip (s : String) : String :=
  String.mk
    (((s.data.dropWhile Char.isWhitespace).reverse.dropWhile
      Char.isWhitespace).reverse)

/-- Module-level configuration of the stateless variant:
`ENV_PREFIX = os.getenv("ENV_PREFIX", "").strip()` followed by
`domain_prefix = f"{ENV_PREFIX}."` when non-empty, else `""`. -/
def domain_prefix (env : String) : String :=
  let e := pyStrip env
  if e ≠ "" then e ++ "." else ""

/-- Oracle outcomes for one invocation of the stateless variant:
the Secrets Manager fetch (`SecretString` or any exception) and the
SendGrid send (`response.status_code` or any raised exception). -/
structure WorldS : Type where
  secret : Except Unit String
  send   : Except Unit Nat

/-- Function `send_verification_email(email, verification_link,
sendgrid_api_key)` of the stateless variant: builds the message (cannot fail on our value
model), sends, and returns `True` only when `response.status_code` is 202;
any other status and any raised exception yield `False`. -/
def send_verification_email (sendResult : Except Unit Nat)
    (_email : Py) (_verification_link _sendgrid_api_key : String) : Bool :=
  match sendResult with
  | .ok code => if code ≠ 202 then false else true
  | .error _ => false

/-- Lines 104–118 of the stateless handler: detect the SNS wrapping,
decode the nested `Message`, and extract truthy `email` and
`verification_token`; any raised exception is propagated (the caller
catches them all).  `loads` is the external `json.loads`, modelled as a
function from the message string to its decoded value (`none` =
`json.JSONDecodeError`). -/
def extractS (loads : String → Option Py) (event : Py) :
    Except PyErr (Py × Py) := do
  let hasRecords ← pyContains event "Records"
  let payload ←
    if hasRecords then do
      let records ← getKey event "Records"
      let r0 ← getIdx records 0
      let sns ← getKey r0 "Sns"
      let msg ← getKey sns "Message"
      match msg with
      | pyStr s =>
          match loads s with
          | some p => Except.ok p
          | none => Except.error jsonDecodeError
      | _ => Except.error typeError
    else
      Except.ok event
  let email ← pyGet payload "email"
  let verification_token ← pyGet payload "verification_token"
  if pyTruthy email ∧ pyTruthy verification_token then
    Except.ok (email, verification_token)
  else
    Except.error valueError

/-- Which of the four terminal branches of the stateless handler produced
the response (instrumentation for stating path-sensitive properties). -/
inductive PathS : Type where
  | secretFail | parseFail | sendFail | success
  deriving DecidableEq, Repr

/-- One full run of the stateless handler: response, attempted external
calls in order, and the terminal branch taken. -/
structure RunS : Type where
  response : Response
  calls : List Call
  path : PathS

/-- Function `lambda_handler(event, context)` of `src/lambda_function.py`.
Control flow of the source, in order: (1) fetch the SendGrid key from
Secrets Manager — on any exception return 500 "Failed to retrieve
SendGrid API Key"; (2) parse the event (SNS-wrapped or direct) and
extract `email` / `verification_token` — on any exception return 400
"Invalid event format"; (3) build
`http://{domain_prefix}cloudjourney.me/verify?token={verification_token}`
(an f-string over defined locals: cannot raise, so the 500
"Failed to construct verification link" branch is unreachable);
(4) send — `False` yields 500 "Failed to send verification email",
else 200 "Verification email sent successfully". -/
def lambda_handler_s (loads : String → Option Py) (env : String)
    (w : WorldS) (event : Py) : RunS :=
  match w.secret with
  | .error _ =>
      ⟨⟨500, mkBody "Failed to retrieve SendGrid API Key"⟩,
        [Call.secretsFetch], PathS.secretFail⟩
  | .ok sendgrid_api_key =>
      match extractS loads event with
      | .error _ =>
          ⟨⟨400, mkBody "Invalid event format"⟩,
            [Call.secretsFetch], PathS.parseFail⟩
      | .ok (email, verification_token) =>
          let verification_link :=
            "http://" ++ domain_prefix env ++
              "cloudjourney.me/verify?token=" ++ pyToStr verification_token
          if send_verification_email w.send email verification_link
              sendgrid_api_key then
            ⟨⟨200, mkBody "Verification email sent successfully"⟩,
              [Call.secretsFetch, Call.emailSend email verification_link],
              PathS.success⟩
          else
            ⟨⟨500, mkBody "Failed to send verification email"⟩,
              [Call.secretsFetch, Call.emailSend email verification_link],
              PathS.sendFail⟩

/-! ## The stateful variant, `src/lambda_package/lambda_function.py` -/

/-- Left-pad a decimal rendering with zeros to `width` digits. -/
def padNum (width n : Nat) : String :=
  let s := toString n
  String.mk (List.replicate (width - s.length) '0') ++ s

/-- Proleptic-Gregorian date `(year, month, day)` of a day count since
1970-01-01 (the standard civil-from-days conversion, used to model how
Python's `datetime` renders an epoch instant). -/
def civilFromDays (days : Nat) : Nat × Nat × Nat :=
  let z := days + 719468
  let era := z / 146097
  let doe := z % 146097
  let yoe := (doe - doe / 1460 + doe / 36524 - doe / 146096) / 365
  let y := yoe + era * 400
  let doy := doe - (365 * yoe + yoe / 4 - yoe / 100)
  let mp := (5 * doy + 2) / 153
  let d := doy - (153 * mp + 2) / 5 + 1
  let m := if mp < 10 then mp + 3 else mp - 9
  (if m ≤ 2 then y + 1 else y, m, d)

/-- Rendering `datetime.isoformat()` of an instant given as microseconds since the
Unix epoch: `YYYY-MM-DDTHH:MM:SS` with `.ffffff` appended exactly when the
microsecond part is nonzero, as Python's `datetime` does. -/
def isoformat (t : Nat) : String :=
  let micro := t % 1000000
  let secs := t / 1000000
  let ymd := civilFromDays (secs / 86400)
  let rem := secs % 86400
  padNum 4 ymd.1 ++ "-" ++ padNum 2 ymd.2.1 ++ "-" ++ padNum 2 ymd.2.2 ++
    "T" ++ padNum 2 (rem / 3600) ++ ":" ++ padNum 2 (rem % 3600 / 60) ++
    ":" ++ padNum 2 (rem % 60) ++
    (if micro ≠ 0 then "." ++ padNum 6 micro else "")

/-- Duration `timedelta(minutes=2)` in microseconds. -/
def twoMinutes : Nat := 120000000

/-- Oracle outcomes for one invocation of the stateful variant:
`datetime.utcnow()` (microseconds since the epoch), the SendGrid send
(`status_code` or raised exception), and the database
connect/insert/commit block (`()` or any raised exception — the oracle
does not distinguish which of the database statements raised). -/
structure WorldP : Type where
  now : Nat
  send : Except Unit Nat
  dbInsert : Except Unit Unit

/-- Function `send_verification_email(email, verification_link)` of the stateful
variant: builds the message, calls `sg.send(message)` and returns `True`
whenever no exception is raised — the response's status code is never
inspected; any raised exception yields `False`. -/
def send_verification_email_pkg (sendResult : Except Unit Nat)
    (_email : Py) (_verification_link : String) : Bool :=
  match sendResult with
  | .ok _ => true
  | .error _ => false

/-- Lines 56–60 of the stateful handler: read
`event['Records'][0]['Sns']['Message']`, decode it with `json.loads`, and
read `payload["email"]` and `payload["user_id"]`; every raised exception
is propagated with its kind (the caller catches only `KeyError` and
`json.JSONDecodeError`). -/
def parse_sns (loads : String → Option Py) (event : Py) :
    Except PyErr (Py × Py) := do
  let records ← getKey event "Records"
  let r0 ← getIdx records 0
  let sns ← getKey r0 "Sns"
  let msg ← getKey sns "Message"
  let s ← match msg with
    | pyStr s => Except.ok s
    | _ => Except.error typeError
  let payload ← match loads s with
    | some p => Except.ok p
    | none => Except.error jsonDecodeError
  let email ← getKey payload "email"
  let user_id ← getKey payload "user_id"
  Except.ok (email, user_id)

/-- Terminal branch of a stateful-variant invocation that returned. -/
inductive PathP : Type where
  | parseFail | sendFail | dbFail | success
  deriving DecidableEq, Repr

/-- One full run of the stateful handler that returned a response. -/
structure RunP : Type where
  response : Response
  calls : List Call
  path : PathP

/-- Function `lambda_handler(event, context)` of
`src/lambda_package/lambda_function.py`.  Control flow of the source:
(1) parse the SNS event — only `KeyError` and `json.JSONDecodeError` are
caught and turned into 400 "Invalid SNS message"; any other exception
(e.g. `IndexError`, `TypeError`) escapes the handler, modelled as
`Except.error`; (2) `expiration_time = datetime.utcnow() +
timedelta(minutes=2)`, `verification_token =
f"{user_id}:{expiration_time.isoformat()}"`, `verification_link =
f"https://yourdomain.com/verify?token={verification_token}"`;
(3) send — `False` yields 500 "Failed to send verification email";
(4) insert the row `(user_id, email, verification_token,
expiration_time, False)` — any exception yields 500 "Failed to log email
in database"; else 200 "Verification email sent successfully". -/
def lambda_handler_pkg (loads : String → Option Py) (w : WorldP)
    (event : Py) : Except PyErr RunP :=
  match parse_sns loads event with
  | .error e =>
      if e = keyError ∨ e = jsonDecodeError then
        .ok ⟨⟨400, mkBody "Invalid SNS message"⟩, [], PathP.parseFail⟩
      else
        .error e
  | .ok (email, user_id) =>
      let expiration_time := w.now + twoMinutes
      let verification_token :=
        pyToStr user_id ++ ":" ++ isoformat expiration_time
      let verification_link :=
        "https://yourdomain.com/verify?token=" ++ verification_token
      if send_verification_email_pkg w.send email verification_link then
        let row := Call.dbInsert user_id email verification_token
          expiration_time false
        match w.dbInsert with
        | .error _ =>
            .ok ⟨⟨500, mkBody "Failed to log email in database"⟩,
              [Call.emailSend email verification_link, row], PathP.dbFail⟩
        | .ok _ =>
            .ok ⟨⟨200, mkBody "Verification email sent successfully"⟩,
              [Call.emailSend email verification_link, row], PathP.success⟩
      else
        .ok ⟨⟨500, mkBody "Failed to send verification email"⟩,
          [Call.emailSend email verification_link], PathP.sendFail⟩

/-- The SNS envelope `{"Records": [{"Sns": {"Message": s}}]}` around a
message string `s` (helper for stating claims about wrapped events). -/
def wrapEvent (s : String) : Py :=
  pyDict [("Records", pyList [pyDict [("Sns", pyDict [("Message", pyStr s)])]])]

/-- The response body produced on each terminal branch of the stateless
handler: a fixed string per branch. -/
def bodyOfPathS : PathS → String
  | PathS.secretFail => mkBody "Failed to retrieve SendGrid API Key"
  | PathS.parseFail  => mkBody "Invalid event format"
  | PathS.sendFail   => mkBody "Failed to send verification email"
  | PathS.success    => mkBody "Verification email sent successfully"

/-- The response body produced on each terminal branch of the stateful
handler: a fixed string per branch. -/
def bodyOfPathP : PathP → String
  | PathP.parseFail => mkBody "Invalid SNS message"
  | PathP.sendFail  => mkBody "Failed to send verification email"
  | PathP.dbFail    => mkBody "Failed to log email in database"
  | PathP.success   => mkBody "Verification email sent successfully"

/-! ## Claims -/

/-- Claim C5: in the stateful variant, when the provider accepts the send
(status 202) but the database insert raises, the handler returns
statusCode 500 with body message "Failed to log email in database", even
though the email-send call was already made (it is first in the call
trace). -/
theorem c5_db_failure_after_send_returns_500 :
    ∀ (loads : String → Option Py) (w : WorldP) (event email user_id : Py),
      parse_sns loads event = Except.ok (email, user_id) →
      w.send = Except.ok 202 →
      w.dbInsert = Except.error () →
      lambda_handler_pkg loads w event =
        Except.ok ⟨⟨500, mkBody "Failed to log email in database"⟩,
          [Call.emailSend email ("https://yourdomain.com/verify?token=" ++
             (pyToStr user_id ++ ":" ++ isoformat (w.now + twoMinutes))),
           Call.dbInsert user_id email
             (pyToStr user_id ++ ":" ++ isoformat (w.now + twoMinutes))
             (w.now + twoMinutes) false],
          PathP.dbFail⟩ := by
  intro loads w event email user_id hp hs hd
  obtain ⟨now, send, db⟩ := w
  simp only at hs hd
  subst hs hd
  simp [lambda_handler_pkg, hp, send_verification_email_pkg]

/-- Witness for C5 at a concrete wrapped event, `utcnow = 0`, provider
status 202 and a failing insert. -/
theorem c5_witness :
    lambda_handler_pkg
        (fun s => if s = "p" then
          some (pyDict [("email", pyStr "a@example.com"), ("user_id", pyStr "1")])
          else none)
        ⟨0, Except.ok 202, Except.error ()⟩ (wrapEvent "p") =
      Except.ok ⟨⟨500, mkBody "Failed to log email in database"⟩,
        [Call.emailSend (pyStr "a@example.com")
           "https://yourdomain.com/verify?token=1:1970-01-01T00:02:00",
         Call.dbInsert (pyStr "1") (pyStr "a@example.com")
           "1:1970-01-01T00:02:00" 120000000 false],
        PathP.dbFail⟩ := by
  have h := c5_db_failure_after_send_returns_500
    (fun s => if s = "p" then
      some (pyDict [("email", pyStr "a@example.com"), ("user_id", pyStr "1")])
      else none)
    ⟨0, Except.ok 202, Except.error ()⟩ (wrapEvent "p")
    (pyStr "a@example.com") (pyStr "1") rfl rfl rfl
  simpa [pyToStr, twoMinutes] using h

/-- Claim C7: in the stateful variant, for every parsed event the
verification token is `user_id`, a colon, and the ISO-8601 rendering of
`utcnow + 2 minutes`; the link embeds that token, and the inserted row
stores the same expiry as `expiration_time` with `is_verified = False`. -/
theorem c7_token_derivation_and_row :
    ∀ (loads : String → Option Py) (w : WorldP) (event email user_id : Py)
      (c : Nat),
      parse_sns loads event = Except.ok (email, user_id) →
      w.send = Except.ok c →
      (lambda_handler_pkg loads w event).map (fun r => r.calls) =
        Except.ok
          [Call.emailSend email ("https://yourdomain.com/verify?token=" ++
             (pyToStr user_id ++ ":" ++ isoformat (w.now + twoMinutes))),
           Call.dbInsert user_id email
             (pyToStr user_id ++ ":" ++ isoformat (w.now + twoMinutes))
             (w.now + twoMinutes) false] := by
  intro loads w event email user_id c hp hs
  obtain ⟨now, send, db⟩ := w
  simp only at hs
  subst hs
  cases db <;> simp [lambda_handler_pkg, hp, send_verification_email_pkg, Except.map]

/-- Witness for C7 at a concrete wrapped event with `user_id = 42` (an
integer) and `utcnow` at 2024-11-20 12:00:00 UTC. -/
theorem c7_witness :
    (lambda_handler_pkg
        (fun s => if s = "p" then
          some (pyDict [("email", pyStr "a@example.com"), ("user_id", pyInt 42)])
          else none)
        ⟨1732104000000000, Except.ok 202, Except.ok ()⟩ (wrapEvent "p")).map
        (fun r => r.calls) =
      Except.ok
        [Call.emailSend (pyStr "a@example.com")
           "https://yourdomain.com/verify?token=42:2024-11-20T12:02:00",
         Call.dbInsert (pyInt 42) (pyStr "a@example.com")
           "42:2024-11-20T12:02:00" 1732104120000000 false] := by
  have h := c7_token_derivation_and_row
    (fun s => if s = "p" then
      some (pyDict [("email", pyStr "a@example.com"), ("user_id", pyInt 42)])
      else none)
    ⟨1732104000000000, Except.ok 202, Except.ok ()⟩ (wrapEvent "p")
    (pyStr "a@example.com") (pyInt 42) 202 rfl rfl
  simpa [pyToStr, twoMinutes] using h

/-- Claim C10: in the stateful variant, every 200 response comes from a
run whose emailed link carries, in its `token` query parameter, exactly
the `verification_token` of the inserted row, and whose row
`expiration_time` is the timestamp rendered inside that token. -/
theorem c10_link_token_matches_row :
    ∀ (loads : String → Option Py) (w : WorldP) (event : Py) (r : RunP),
      lambda_handler_pkg loads w event = Except.ok r →
      r.response.statusCode = 200 →
      ∃ email user_id tok exp,
        r.calls =
          [Call.emailSend email ("https://yourdomain.com/verify?token=" ++ tok),
           Call.dbInsert user_id email tok exp false] ∧
        tok = pyToStr user_id ++ ":" ++ isoformat exp := by
  intro loads w event r hr h200
  unfold lambda_handler_pkg at hr
  cases hp : parse_sns loads event with
  | error e =>
      rw [hp] at hr
      cases e <;> simp at hr <;> (obtain rfl := hr.symm; simp at h200)
  | ok p =>
      obtain ⟨email, user_id⟩ := p
      rw [hp] at hr
      cases hs : w.send with
      | error u =>
          rw [hs] at hr
          simp [send_verification_email_pkg] at hr
          obtain rfl := hr.symm
          simp at h200
      | ok c =>
          rw [hs] at hr
          cases hd : w.dbInsert with
          | error u =>
              rw [hd] at hr
              simp [send_verification_email_pkg] at hr
              obtain rfl := hr.symm
              simp at h200
          | ok u =>
              rw [hd] at hr
              simp [send_verification_email_pkg] at hr
              obtain rfl := hr.symm
              exact ⟨email, user_id, _, w.now + twoMinutes, rfl, rfl⟩

/-- Witness for C10 at a concrete successful invocation. -/
theorem c10_witness :
    ∃ email user_id tok exp,
      (RunP.mk ⟨200, mkBody "Verification email sent successfully"⟩
        [Call.emailSend (pyStr "a@example.com")
           "https://yourdomain.com/verify?token=7:1970-01-01T00:02:00",
         Call.dbInsert (pyStr "7") (pyStr "a@example.com")
           "7:1970-01-01T00:02:00" 120000000 false]
        PathP.success).calls =
        [Call.emailSend email ("https://yourdomain.com/verify?token=" ++ tok),
         Call.dbInsert user_id email tok exp false] ∧
      tok = pyToStr user_id ++ ":" ++ isoformat exp := by
  exact c10_link_token_matches_row
    (fun s => if s = "p" then
      some (pyDict [("email", pyStr "a@example.com"), ("user_id", pyStr "7")])
      else none)
    ⟨0, Except.ok 202, Except.ok ()⟩ (wrapEvent "p") _ rfl rfl

/-- Claim C6: the stateless variant embeds the caller's token verbatim in
`http://{prefix}cloudjourney.me/verify?token={token}` for every non-empty
`email`/`verification_token` pair, and the concrete example event with an
empty prefix yields exactly the link
`http://cloudjourney.me/verify?token=abc123` and, on provider status 202,
a 200 response with the fixed success body. -/
theorem c6_link_contains_token_verbatim :
    (∀ (loads : String → Option Py) (env : String) (w : WorldS)
      (key email tok : String),
      w.secret = Except.ok key → email ≠ "" → tok ≠ "" →
      (lambda_handler_s loads env w
        (pyDict [("email", pyStr email),
          ("verification_token", pyStr tok)])).calls =
        [Call.secretsFetch,
         Call.emailSend (pyStr email)
           ("http://" ++ domain_prefix env ++
             "cloudjourney.me/verify?token=" ++ tok)]) ∧
    lambda_handler_s (fun _ => none) "" ⟨Except.ok "KEY", Except.ok 202⟩
        (pyDict [("email", pyStr "a@example.com"),
          ("verification_token", pyStr "abc123")]) =
      ⟨⟨200, "\x7b\"message\": \"Verification email sent successfully\"\x7d"⟩,
       [Call.secretsFetch,
        Call.emailSend (pyStr "a@example.com")
          "http://cloudjourney.me/verify?token=abc123"],
       PathS.success⟩ := by
  constructor
  · intro loads env w key email tok hsec he ht
    obtain ⟨sec, send⟩ := w
    simp only at hsec
    subst hsec
    have hex : extractS loads
        (pyDict [("email", pyStr email), ("verification_token", pyStr tok)]) =
        Except.ok (pyStr email, pyStr tok) := by
      simp [extractS, pyContains, pyGet, pyTruthy, List.lookup, he, ht,
        bind, Except.bind]
    simp [lambda_handler_s, hex, pyToStr]
    split <;> rfl
  · rfl

/-- Witness for the universally quantified half of C6 at a non-empty
environment prefix and a failing provider (the link is still built and
passed to the send call). -/
theorem c6_witness :
    (lambda_handler_s (fun _ => none) "demo" ⟨Except.ok "K2", Except.error ()⟩
      (pyDict [("email", pyStr "b@example.com"),
        ("verification_token", pyStr "t0k")])).calls =
      [Call.secretsFetch,
       Call.emailSend (pyStr "b@example.com")
         "http://demo.cloudjourney.me/verify?token=t0k"] := by
  have h := c6_link_contains_token_verbatim.1 (fun _ => none) "demo"
    ⟨Except.ok "K2", Except.error ()⟩ "K2" "b@example.com" "t0k" rfl
    (by decide) (by decide)
  simpa [show domain_prefix "demo" = "demo." from rfl] using h

/-- Helper: the stateless handler's body is a fixed string determined by
the terminal branch alone. -/
theorem lambda_handler_s_body_of_path :
    ∀ (loads : String → Option Py) (env : String) (w : WorldS) (event : Py),
      (lambda_handler_s loads env w event).response.body =
        bodyOfPathS (lambda_handler_s loads env w event).path := by
  intro loads env w event
  unfold lambda_handler_s
  cases w.secret with
  | error u => rfl
  | ok key =>
      cases hx : extractS loads event with
      | error e => rfl
      | ok p =>
          obtain ⟨email, tok⟩ := p
          simp only
          split <;> rfl

/-- Helper: the stateful handler's body, whenever it returns, is a fixed
string determined by the terminal branch alone. -/
theorem lambda_handler_pkg_body_of_path :
    ∀ (loads : String → Option Py) (w : WorldP) (event : Py) (r : RunP),
      lambda_handler_pkg loads w event = Except.ok r →
      r.response.body = bodyOfPathP r.path := by
  intro loads w event r hr
  unfold lambda_handler_pkg at hr
  cases hp : parse_sns loads event with
  | error e =>
      rw [hp] at hr
      cases e <;> simp at hr <;> (obtain rfl := hr.symm; rfl)
  | ok p =>
      obtain ⟨email, user_id⟩ := p
      rw [hp] at hr
      cases hs : w.send with
      | error u =>
          rw [hs] at hr
          simp [send_verification_email_pkg] at hr
          obtain rfl := hr.symm
          rfl
      | ok c =>
          rw [hs] at hr
          cases hd : w.dbInsert with
          | error u =>
              rw [hd] at hr
              simp [send_verification_email_pkg] at hr
              obtain rfl := hr.symm
              rfl
          | ok u =>
              rw [hd] at hr
              simp [send_verification_email_pkg] at hr
              obtain rfl := hr.symm
              rfl

/-- Claim C9: two-run noninterference of the error bodies.  Any two
invocations (arbitrary credentials, tokens, events, configuration and
oracle outcomes) that end on the same terminal branch produce the same
response body — in particular every 400/500 body is a fixed string into
which neither the API key nor the token flows.  Stated for both
variants. -/
theorem c9_error_body_noninterference :
    (∀ (l₁ l₂ : String → Option Py) (env₁ env₂ : String) (w₁ w₂ : WorldS)
      (e₁ e₂ : Py),
      (lambda_handler_s l₁ env₁ w₁ e₁).path =
        (lambda_handler_s l₂ env₂ w₂ e₂).path →
      (lambda_handler_s l₁ env₁ w₁ e₁).response.body =
        (lambda_handler_s l₂ env₂ w₂ e₂).response.body) ∧
    (∀ (l₁ l₂ : String → Option Py) (w₁ w₂ : WorldP) (e₁ e₂ : Py)
      (r₁ r₂ : RunP),
      lambda_handler_pkg l₁ w₁ e₁ = Except.ok r₁ →
      lambda_handler_pkg l₂ w₂ e₂ = Except.ok r₂ →
      r₁.path = r₂.path →
      r₁.response.body = r₂.response.body) := by
  constructor
  · intro l₁ l₂ env₁ env₂ w₁ w₂ e₁ e₂ hpath
    rw [lambda_handler_s_body_of_path, lambda_handler_s_body_of_path, hpath]
  · intro l₁ l₂ w₁ w₂ e₁ e₂ r₁ r₂ h₁ h₂ hpath
    rw [lambda_handler_pkg_body_of_path l₁ w₁ e₁ r₁ h₁,
      lambda_handler_pkg_body_of_path l₂ w₂ e₂ r₂ h₂, hpath]

/-- Witness for C9: two stateless runs with different API keys and tokens
on the send-failure branch, and two stateful 400 runs under different
worlds, each pair with equal bodies. -/
theorem c9_witness :
    (lambda_handler_s (fun _ => none) "" ⟨Except.ok "KEYA", Except.error ()⟩
        (pyDict [("email", pyStr "a@x.y"),
          ("verification_token", pyStr "tokenA")])).response.body =
      (lambda_handler_s (fun _ => none) "pre" ⟨Except.ok "KEYB", Except.ok 503⟩
        (pyDict [("email", pyStr "b@x.y"),
          ("verification_token", pyStr "tokenB")])).response.body ∧
    (RunP.mk ⟨400, mkBody "Invalid SNS message"⟩ [] PathP.parseFail).response.body =
      (RunP.mk ⟨400, mkBody "Invalid SNS message"⟩ [] PathP.parseFail).response.body := by
  constructor
  · exact c9_error_body_noninterference.1 (fun _ => none) (fun _ => none)
      "" "pre" ⟨Except.ok "KEYA", Except.error ()⟩ ⟨Except.ok "KEYB", Except.ok 503⟩
      (pyDict [("email", pyStr "a@x.y"), ("verification_token", pyStr "tokenA")])
      (pyDict [("email", pyStr "b@x.y"), ("verification_token", pyStr "tokenB")])
      rfl
  · exact c9_error_body_noninterference.2 (fun _ => none) (fun _ => none)
      ⟨0, Except.ok 202, Except.ok ()⟩ ⟨5, Except.error (), Except.error ()⟩
      (wrapEvent "nope") (wrapEvent "also nope")
      ⟨⟨400, mkBody "Invalid SNS message"⟩, [], PathP.parseFail⟩
      ⟨⟨400, mkBody "Invalid SNS message"⟩, [], PathP.parseFail⟩ rfl rfl rfl

/-- Claim C1 counterexample: in the stateless variant the Secrets Manager
fetch happens before any validation, so an event missing `email` and
`verification_token` still triggers a secrets-store network call (first
conjunct), and when that fetch fails the response is 500, not 400 (second
conjunct). -/
theorem c1_counterexample :
    (lambda_handler_s (fun _ => none) "" ⟨Except.ok "KEY", Except.ok 202⟩
      (pyDict [])).calls = [Call.secretsFetch] ∧
    (lambda_handler_s (fun _ => none) "" ⟨Except.error (), Except.ok 202⟩
      (pyDict [])).response.statusCode = 500 :=
  ⟨rfl, rfl⟩

/-- Claim C1 amended: in the stateless variant the secrets fetch is always
attempted first; once it succeeds, an event with a missing or falsy
`email` or `verification_token` yields 400 with no further network call
(the trace is exactly the secrets fetch).  In the stateful variant a
payload missing `email` or `user_id` yields 400 with no network call at
all. -/
theorem c1_missing_fields_400 :
    (∀ (loads : String → Option Py) (env key : String) (w : WorldS)
      (kvs : List (String × Py)),
      w.secret = Except.ok key →
      kvs.lookup "Records" = none →
      (¬ pyTruthy ((kvs.lookup "email").getD pyNone) ∨
       ¬ pyTruthy ((kvs.lookup "verification_token").getD pyNone)) →
      lambda_handler_s loads env w (pyDict kvs) =
        ⟨⟨400, mkBody "Invalid event format"⟩, [Call.secretsFetch],
          PathS.parseFail⟩) ∧
    (∀ (loads : String → Option Py) (w : WorldP) (s : String)
      (kvs : List (String × Py)),
      loads s = some (pyDict kvs) →
      (kvs.lookup "email" = none ∨ kvs.lookup "user_id" = none) →
      lambda_handler_pkg loads w (wrapEvent s) =
        Except.ok ⟨⟨400, mkBody "Invalid SNS message"⟩, [],
          PathP.parseFail⟩) := by
  constructor
  · intro loads env key w kvs hsec hrec hmiss
    obtain ⟨sec, send⟩ := w
    simp only at hsec
    subst hsec
    have hex : extractS loads (pyDict kvs) = Except.error valueError := by
      rcases hmiss with h | h <;>
        simp [extractS, pyContains, pyGet, hrec, bind, Except.bind, h]
    simp [lambda_handler_s, hex]
  · intro loads w s kvs hl hmiss
    have hp : parse_sns loads (wrapEvent s) = Except.error keyError := by
      rcases hmiss with h | h
      · simp [parse_sns, wrapEvent, getKey, getIdx, bind, Except.bind, hl, h]
      · cases he : kvs.lookup "email" with
        | none =>
            simp [parse_sns, wrapEvent, getKey, getIdx, bind, Except.bind,
              hl, he]
        | some v =>
            simp [parse_sns, wrapEvent, getKey, getIdx, bind, Except.bind,
              hl, he, h]
    simp [lambda_handler_pkg, hp]

/-- Witness for the amended C1 at concrete events: a stateless direct
event carrying only `email`, and a stateful payload carrying only
`email`. -/
theorem c1_witness :
    lambda_handler_s (fun _ => none) "" ⟨Except.ok "KEY", Except.ok 202⟩
        (pyDict [("email", pyStr "a@example.com")]) =
      ⟨⟨400, mkBody "Invalid event format"⟩, [Call.secretsFetch],
        PathS.parseFail⟩ ∧
    lambda_handler_pkg
        (fun s => if s = "p" then
          some (pyDict [("email", pyStr "a@example.com")]) else none)
        ⟨0, Except.ok 202, Except.ok ()⟩ (wrapEvent "p") =
      Except.ok ⟨⟨400, mkBody "Invalid SNS message"⟩, [], PathP.parseFail⟩ :=
  ⟨c1_missing_fields_400.1 (fun _ => none) "" "KEY"
      ⟨Except.ok "KEY", Except.ok 202⟩ [("email", pyStr "a@example.com")]
      rfl rfl (Or.inr (by decide)),
   c1_missing_fields_400.2
      (fun s => if s = "p" then
        some (pyDict [("email", pyStr "a@example.com")]) else none)
      ⟨0, Except.ok 202, Except.ok ()⟩ "p" [("email", pyStr "a@example.com")]
      rfl (Or.inr rfl)⟩

/-- Claim C2 counterexample: the stateful variant's
`send_verification_email` returns `True` on a provider status of 500 when
no exception is raised — the status code is never inspected, refuting
"the result is True if and only if the status code is 202". -/
theorem c2_counterexample :
    send_verification_email_pkg (Except.ok 500) (pyStr "a@example.com")
      "https://yourdomain.com/verify?token=1:1970-01-01T00:02:00" = true :=
  rfl

/-- Claim C2 amended: in the stateless variant the result is `True` iff
the provider returned status 202 (any other status and any exception give
`False`); in the stateful variant the result is `True` iff the send call
raised no exception — the status code is ignored there. -/
theorem c2_send_result_boolean :
    ∀ (r : Except Unit Nat) (email : Py) (link key : String),
      (send_verification_email r email link key = true ↔
        r = Except.ok 202) ∧
      (send_verification_email_pkg r email link = true ↔
        ∃ c, r = Except.ok c) := by
  intro r email link key
  constructor
  · cases r with
    | error u => simp [send_verification_email]
    | ok c => by_cases h : c = 202 <;> simp [send_verification_email, h]
  · cases r with
    | error u => simp [send_verification_email_pkg]
    | ok c => simp [send_verification_email_pkg]

/-- Witness for the amended C2 at a concrete accepted send. -/
theorem c2_witness :
    send_verification_email (Except.ok 202) (pyStr "a@example.com")
      "http://cloudjourney.me/verify?token=abc123" "KEY" = true :=
  (c2_send_result_boolean (Except.ok 202) (pyStr "a@example.com")
    "http://cloudjourney.me/verify?token=abc123" "KEY").1.mpr rfl

/-- Claim C3 counterexample: the stateful variant accepts only wrapped
events — the same payload gives 200 when wrapped and 400 when passed
directly (first two conjuncts); and in the stateless variant a payload
that itself contains a `Records` key is mis-parsed when passed directly,
giving 400 where the wrapped form gives 200 (last two conjuncts). -/
theorem c3_counterexample :
    ((lambda_handler_pkg
        (fun s => if s = "p" then
          some (pyDict [("email", pyStr "a@example.com"), ("user_id", pyStr "1")])
          else none)
        ⟨0, Except.ok 202, Except.ok ()⟩ (wrapEvent "p")).map
      (fun r => r.response.statusCode) = Except.ok 200) ∧
    ((lambda_handler_pkg
        (fun s => if s = "p" then
          some (pyDict [("email", pyStr "a@example.com"), ("user_id", pyStr "1")])
          else none)
        ⟨0, Except.ok 202, Except.ok ()⟩
        (pyDict [("email", pyStr "a@example.com"), ("user_id", pyStr "1")])).map
      (fun r => r.response.statusCode) = Except.ok 400) ∧
    (lambda_handler_s
        (fun s => if s = "q" then
          some (pyDict [("Records", pyList []), ("email", pyStr "a@x.y"),
            ("verification_token", pyStr "t")])
          else none)
        "" ⟨Except.ok "KEY", Except.ok 202⟩
        (wrapEvent "q")).response.statusCode = 200 ∧
    (lambda_handler_s
        (fun s => if s = "q" then
          some (pyDict [("Records", pyList []), ("email", pyStr "a@x.y"),
            ("verification_token", pyStr "t")])
          else none)
        "" ⟨Except.ok "KEY", Except.ok 202⟩
        (pyDict [("Records", pyList []), ("email", pyStr "a@x.y"),
          ("verification_token", pyStr "t")])).response.statusCode = 400 :=
  ⟨rfl, rfl, rfl, rfl⟩

/-- Claim C3 amended: in the stateless variant only, a wrapped event whose
`Message` decodes to `P` and the direct event `P` produce identical runs
(response, call sequence and branch), provided `P` does not itself
contain a `Records` key; the stateful variant processes only wrapped
events. -/
theorem c3_wrapped_direct_equivalence :
    ∀ (loads : String → Option Py) (env : String) (w : WorldS) (s : String)
      (P : Py),
      loads s = some P →
      pyContains P "Records" ≠ Except.ok true →
      lambda_handler_s loads env w (wrapEvent s) =
        lambda_handler_s loads env w P := by
  intro loads env w s P hl hrec
  obtain ⟨sec, send⟩ := w
  cases sec with
  | error u => rfl
  | ok key =>
      cases P with
      | pyDict kvs =>
          have hnone : kvs.lookup "Records" = none := by
            cases h : kvs.lookup "Records" with
            | none => rfl
            | some v => exact absurd (by simp [pyContains, h]) hrec
          simp [lambda_handler_s, extractS, pyContains, wrapEvent, getKey,
            getIdx, bind, Except.bind, hl, hnone]
      | pyList xs =>
          have hfalse : (xs.any fun x => match x with
              | pyStr t => t == "Records"
              | _ => false) = false := by
            cases h : (xs.any fun x => match x with
                | pyStr t => t == "Records"
                | _ => false) with
            | false => rfl
            | true => exact absurd (by simp [pyContains, h]) hrec
          simp [lambda_handler_s, extractS, pyContains, wrapEvent, getKey,
            getIdx, pyGet, bind, Except.bind, hl, hfalse]
      | pyStr t =>
          have hfalse : ((t.splitOn "Records").length ≠ 1 : Bool) = false := by
            cases h : ((t.splitOn "Records").length ≠ 1 : Bool) with
            | false => rfl
            | true => exact absurd (by simp [pyContains, h]) hrec
          simp [lambda_handler_s, extractS, pyContains, wrapEvent, getKey,
            getIdx, pyGet, bind, Except.bind, hl, hfalse]
      | pyNone =>
          simp [lambda_handler_s, extractS, pyContains, wrapEvent, getKey,
            getIdx, pyGet, bind, Except.bind, hl]
      | pyBool b =>
          simp [lambda_handler_s, extractS, pyContains, wrapEvent, getKey,
            getIdx, pyGet, bind, Except.bind, hl]
      | pyInt n =>
          simp [lambda_handler_s, extractS, pyContains, wrapEvent, getKey,
            getIdx, pyGet, bind, Except.bind, hl]

/-- Witness for the amended C3 at a concrete payload without a `Records`
key. -/
theorem c3_witness :
    lambda_handler_s
        (fun t => if t = "d" then
          some (pyDict [("email", pyStr "e@x.y"),
            ("verification_token", pyStr "tk")])
          else none)
        "" ⟨Except.ok "K", Except.ok 202⟩ (wrapEvent "d") =
      lambda_handler_s
        (fun t => if t = "d" then
          some (pyDict [("email", pyStr "e@x.y"),
            ("verification_token", pyStr "tk")])
          else none)
        "" ⟨Except.ok "K", Except.ok 202⟩
        (pyDict [("email", pyStr "e@x.y"),
          ("verification_token", pyStr "tk")]) :=
  c3_wrapped_direct_equivalence
    (fun t => if t = "d" then
      some (pyDict [("email", pyStr "e@x.y"),
        ("verification_token", pyStr "tk")])
      else none)
    "" ⟨Except.ok "K", Except.ok 202⟩ "d"
    (pyDict [("email", pyStr "e@x.y"), ("verification_token", pyStr "tk")])
    rfl (fun h => Bool.noConfusion (Except.ok.inj h))

/-- Claim C4 counterexample: stateful variant with provider status 500 and
no raised exception — the handler treats the send as a success, inserts
the row and returns 200, instead of returning 500 and skipping
persistence. -/
theorem c4_counterexample :
    lambda_handler_pkg
        (fun s => if s = "p" then
          some (pyDict [("email", pyStr "a@example.com"), ("user_id", pyStr "1")])
          else none)
        ⟨0, Except.ok 500, Except.ok ()⟩ (wrapEvent "p") =
      Except.ok ⟨⟨200, mkBody "Verification email sent successfully"⟩,
        [Call.emailSend (pyStr "a@example.com")
           "https://yourdomain.com/verify?token=1:1970-01-01T00:02:00",
         Call.dbInsert (pyStr "1") (pyStr "a@example.com")
           "1:1970-01-01T00:02:00" 120000000 false],
        PathP.success⟩ := by
  rfl

/-- Claim C4 amended: the stateful handler treats the send as failed
exactly when the SendGrid call raises an exception; in that case it
returns 500 and the persistence insert is never attempted (the call trace
contains no insert).  A non-202 provider status that does not raise is
treated as success and reaches persistence. -/
theorem c4_send_exception_skips_persistence :
    ∀ (loads : String → Option Py) (w : WorldP) (event email user_id : Py),
      parse_sns loads event = Except.ok (email, user_id) →
      w.send = Except.error () →
      lambda_handler_pkg loads w event =
        Except.ok ⟨⟨500, mkBody "Failed to send verification email"⟩,
          [Call.emailSend email ("https://yourdomain.com/verify?token=" ++
             (pyToStr user_id ++ ":" ++ isoformat (w.now + twoMinutes)))],
          PathP.sendFail⟩ := by
  intro loads w event email user_id hp hs
  obtain ⟨now, send, db⟩ := w
  simp only at hs
  subst hs
  simp [lambda_handler_pkg, hp, send_verification_email_pkg]

/-- Witness for the amended C4 at a concrete wrapped event whose send
raises. -/
theorem c4_witness :
    lambda_handler_pkg
        (fun s => if s = "p" then
          some (pyDict [("email", pyStr "a@example.com"), ("user_id", pyStr "1")])
          else none)
        ⟨0, Except.error (), Except.ok ()⟩ (wrapEvent "p") =
      Except.ok ⟨⟨500, mkBody "Failed to send verification email"⟩,
        [Call.emailSend (pyStr "a@example.com")
           "https://yourdomain.com/verify?token=1:1970-01-01T00:02:00"],
        PathP.sendFail⟩ := by
  have h := c4_send_exception_skips_persistence
    (fun s => if s = "p" then
      some (pyDict [("email", pyStr "a@example.com"), ("user_id", pyStr "1")])
      else none)
    ⟨0, Except.error (), Except.ok ()⟩ (wrapEvent "p")
    (pyStr "a@example.com") (pyStr "1") rfl rfl
  simpa [pyToStr, twoMinutes] using h

/-- Claim C8 counterexample: the stateful handler catches only `KeyError`
and `json.JSONDecodeError`; an event whose `Records` list is empty raises
an uncaught `IndexError`, so no `{statusCode, body}` response is produced
at all. -/
theorem c8_counterexample :
    lambda_handler_pkg (fun _ => none) ⟨0, Except.ok 202, Except.ok ()⟩
      (pyDict [("Records", pyList [])]) = Except.error indexError :=
  rfl

/-- Claim C8 amended: the stateless handler always returns the fixed shape
(statusCode in 200/400/500 and a body that is the JSON encoding of a
single-key message object); the stateful handler returns that shape
whenever it returns at all, but parse-time exceptions other than
`KeyError`/`JSONDecodeError` escape it. -/
theorem c8_response_shape :
    (∀ (loads : String → Option Py) (env : String) (w : WorldS) (event : Py),
      ((lambda_handler_s loads env w event).response.statusCode = 200 ∨
       (lambda_handler_s loads env w event).response.statusCode = 400 ∨
       (lambda_handler_s loads env w event).response.statusCode = 500) ∧
      ∃ m, (lambda_handler_s loads env w event).response.body = mkBody m) ∧
    (∀ (loads : String → Option Py) (w : WorldP) (event : Py) (r : RunP),
      lambda_handler_pkg loads w event = Except.ok r →
      (r.response.statusCode = 200 ∨ r.response.statusCode = 400 ∨
       r.response.statusCode = 500) ∧
      ∃ m, r.response.body = mkBody m) := by
  constructor
  · intro loads env w event
    unfold lambda_handler_s
    cases w.secret with
    | error u => exact ⟨Or.inr (Or.inr rfl), _, rfl⟩
    | ok key =>
        cases hx : extractS loads event with
        | error e => exact ⟨Or.inr (Or.inl rfl), _, rfl⟩
        | ok p =>
            obtain ⟨email, tok⟩ := p
            simp only
            split
            · exact ⟨Or.inl rfl, _, rfl⟩
            · exact ⟨Or.inr (Or.inr rfl), _, rfl⟩
  · intro loads w event r hr
    unfold lambda_handler_pkg at hr
    cases hp : parse_sns loads event with
    | error e =>
        rw [hp] at hr
        cases e <;> simp at hr <;>
          (obtain rfl := hr.symm; exact ⟨Or.inr (Or.inl rfl), _, rfl⟩)
    | ok p =>
        obtain ⟨email, user_id⟩ := p
        rw [hp] at hr
        cases hs : w.send with
        | error u =>
            rw [hs] at hr
            simp [send_verification_email_pkg] at hr
            obtain rfl := hr.symm
            exact ⟨Or.inr (Or.inr rfl), _, rfl⟩
        | ok c =>
            rw [hs] at hr
            cases hd : w.dbInsert with
            | error u =>
                rw [hd] at hr
                simp [send_verification_email_pkg] at hr
                obtain rfl := hr.symm
                exact ⟨Or.inr (Or.inr rfl), _, rfl⟩
            | ok u =>
                rw [hd] at hr
                simp [send_verification_email_pkg] at hr
                obtain rfl := hr.symm
                exact ⟨Or.inl rfl, _, rfl⟩

/-- Witness for the amended C8: the stateful handler's 400 run on an
undecodable message has the fixed shape. -/
theorem c8_witness :
    ((RunP.mk ⟨400, mkBody "Invalid SNS message"⟩ []
        PathP.parseFail).response.statusCode = 200 ∨
     (RunP.mk ⟨400, mkBody "Invalid SNS message"⟩ []
        PathP.parseFail).response.statusCode = 400 ∨
     (RunP.mk ⟨400, mkBody "Invalid SNS message"⟩ []
        PathP.parseFail).response.statusCode = 500) ∧
    ∃ m, (RunP.mk ⟨400, mkBody "Invalid SNS message"⟩ []
        PathP.parseFail).response.body = mkBody m :=
  c8_response_shape.2 (fun _ => none) ⟨0, Except.ok 202, Except.ok ()⟩
    (wrapEvent "x")
    ⟨⟨400, mkBody "Invalid SNS message"⟩, [], PathP.parseFail⟩ rfl

end Serverless
